import Mathlib

/-!
Verification development for the magtag weatherstation core pipeline:
the percent-encoder, HTTP fetch clients, payload extractor, bounded
forecast decoder and the layout/render helpers, shallowly embedded from
the Rust sources (`src/weather/http.rs`, `src/weather/api.rs`,
`src/weather/mod.rs`, `src/weather/model.rs`, `src/graphics.rs`,
`src/time.rs`).  Machine integers are modelled as `Int`/`Nat`; `f32`
fields are carried by an opaque `Int` payload since no verified property
depends on float arithmetic; fallible Rust code returns `Except`/`Option`
and a Rust panic is modelled as `Option.none`.
-/

namespace Magtag

/-- Unified application error type, embedded from `src/error.rs`.  The
`RequestTimeout` variant is the one produced by `src/weather/http.rs`
(the error enum and its users are mid-refactor in the sources). -/
inductive AppError where
  | DisplayError
  | DnsQueryFailed
  | ConnectionFailed
  | HttpRequestFailed
  | SocketReadError
  | JsonParseFailed
  | RequestTimeout
  | Other
deriving DecidableEq, Repr

/-! ## Graphics helpers (`src/graphics.rs`) -/

/-- Map weather codes to icon indices in the 3x3 sprite sheet,
embedded from `weather_code_to_icon_index` in `src/graphics.rs`. -/
def weather_code_to_icon_index (code : Int) : Int :=
  if code = 0 then 0
  else if code = 1 then 1
  else if code = 2 then 2
  else if code = 3 then 3
  else if code = 61 ∨ code = 63 ∨ code = 65 then 4
  else if code = 51 ∨ code = 53 ∨ code = 55 ∨ code = 80 ∨ code = 81 ∨ code = 82 then 5
  else if code = 95 ∨ code = 96 ∨ code = 99 then 6
  else if code = 56 ∨ code = 57 ∨ code = 66 ∨ code = 67 ∨ code = 71 ∨ code = 73 ∨
          code = 75 ∨ code = 77 ∨ code = 85 ∨ code = 86 then 7
  else if code = 45 ∨ code = 48 then 8
  else 0

/-- Compass-point bucketing of a wind direction in degrees, embedded from
`wind_dir_text` in `src/graphics.rs` (Rust half-open range patterns,
tried in order, with a catch-all arm returning "N"). -/
def wind_dir_text (direction : Int) : String :=
  if 0 ≤ direction ∧ direction < 22 then "N"
  else if 22 ≤ direction ∧ direction < 67 then "NE"
  else if 67 ≤ direction ∧ direction < 122 then "E"
  else if 122 ≤ direction ∧ direction < 157 then "SE"
  else if 157 ≤ direction ∧ direction < 202 then "S"
  else if 202 ≤ direction ∧ direction < 247 then "SW"
  else if 247 ≤ direction ∧ direction < 293 then "W"
  else if 293 ≤ direction ∧ direction < 337 then "NW"
  else "N"

/-- Sakamoto day-of-week table from `day_of_week_sakamoto` in
`src/graphics.rs`. -/
def sakamoto_table : List Int := [0, 3, 2, 5, 0, 3, 5, 1, 4, 6, 2, 4]

/-- Day-of-week via the Sakamoto algorithm, embedded from
`day_of_week_sakamoto` in `src/graphics.rs`.  Rust `/` and `%` on `i32`
truncate toward zero, which is `Int.tdiv`/`Int.tmod` here.  The table index
`(month - 1) as usize` panics (models to `none`) when `month` is outside
`1..=12`. -/
def day_of_week_sakamoto (year month day : Int) : Option String :=
  if month < 1 ∨ 12 < month then none
  else
    let y := if month < 3 then year - 1 else year
    let t := sakamoto_table.getD (month - 1).toNat 0
    let dow := Int.tmod (y + Int.tdiv y 4 - Int.tdiv y 100 + Int.tdiv y 400 + t + day) 7
    some (if dow = 0 then "SUN"
      else if dow = 1 then "MON"
      else if dow = 2 then "TUE"
      else if dow = 3 then "WED"
      else if dow = 4 then "THU"
      else if dow = 5 then "FRI"
      else "SAT")

/-! ## Date/time helpers (`src/time.rs`) -/

/-- Ordinal suffix for a day of month, embedded from `ordinal` in
`src/time.rs`. -/
def ordinal (n : Nat) : String :=
  if 11 ≤ n ∧ n ≤ 13 then "th"
  else if n % 10 = 1 then "st"
  else if n % 10 = 2 then "nd"
  else if n % 10 = 3 then "rd"
  else "th"

/-- Rust `str::get(i..j)` on the (ASCII) date/time strings of the feed:
`none` when the range end exceeds the string length. -/
def str_slice (s : String) (i j : Nat) : Option (List Char) :=
  if j ≤ s.length then some ((s.toList.drop i).take (j - i)) else none

/-- Digit-string parser modelling Rust `str::parse` for the integer
types used on date substrings: optional sign followed by at least one
decimal digit. -/
def parse_digits (cs : List Char) : Option Nat :=
  if cs.isEmpty then none
  else cs.foldlM (fun acc c => if c.isDigit then some (acc * 10 + (c.toNat - 48)) else none) 0

/-- Signed integer parse (Rust `str::parse::<i32>` / `str::parse::<u8>`
as used on date substrings). -/
def parse_int_chars (cs : List Char) : Option Int :=
  match cs with
  | '-' :: rest => (parse_digits rest).map (fun n => -(n : Int))
  | '+' :: rest => (parse_digits rest).map (fun n => (n : Int))
  | _ => (parse_digits cs).map (fun n => (n : Int))

/-- Gregorian leap-year rule (proleptic), as used by the `time` crate's
`Date::from_calendar_date`. -/
def is_leap_year (y : Int) : Bool :=
  y % 4 = 0 ∧ (y % 100 ≠ 0 ∨ y % 400 = 0)

/-- Days in a month (month `1..=12`), as validated by the `time` crate's
`Date::from_calendar_date`. -/
def days_in_month (y : Int) (m : Nat) : Nat :=
  if m = 2 then (if is_leap_year y then 29 else 28)
  else if m = 4 ∨ m = 6 ∨ m = 9 ∨ m = 11 then 30
  else 31

/-- Full month name (month `1..=12`), from `format_date` in
`src/time.rs`. -/
def month_name (m : Nat) : String :=
  if m = 1 then "January" else if m = 2 then "February" else if m = 3 then "March"
  else if m = 4 then "April" else if m = 5 then "May" else if m = 6 then "June"
  else if m = 7 then "July" else if m = 8 then "August" else if m = 9 then "September"
  else if m = 10 then "October" else if m = 11 then "November" else "December"

/-- Full weekday name indexed by the Sakamoto day number (0 = Sunday).
Modelled from the `time` crate's `Date::weekday`, which agrees with the
Sakamoto formula on every valid proleptic Gregorian date. -/
def weekday_full_name (dow : Int) : String :=
  if dow = 0 then "Sunday" else if dow = 1 then "Monday" else if dow = 2 then "Tuesday"
  else if dow = 3 then "Wednesday" else if dow = 4 then "Thursday"
  else if dow = 5 then "Friday" else "Saturday"

/-- Sakamoto day number for a valid date (month `1..=12`). -/
def weekday_number (year : Int) (month : Nat) (day : Int) : Int :=
  let y := if month < 3 then year - 1 else year
  let t := sakamoto_table.getD (month - 1) 0
  Int.tmod (y + Int.tdiv y 4 - Int.tdiv y 100 + Int.tdiv y 400 + t + day) 7

/-- Formatted date string, embedded from `format_date` in `src/time.rs`:
parses `YYYY-MM-DD` substrings, validates them as the `time` crate's
`Date::from_calendar_date` does (month `1..=12`, day within the month,
year within `-9999..=9999`), and renders
`"<Weekday> <Month> <Day><ordinal>, <Year>"`. -/
def format_date (iso : String) : Option String := do
  let ycs ← str_slice iso 0 4
  let y ← parse_int_chars ycs
  let mcs ← str_slice iso 5 7
  let m ← parse_int_chars mcs
  let dcs ← str_slice iso 8 10
  let d ← parse_int_chars dcs
  if m < 1 ∨ 12 < m then none
  else if y < -9999 ∨ 9999 < y then none
  else if d < 1 ∨ (days_in_month y m.toNat : Int) < d then none
  else
    some (weekday_full_name (weekday_number y m.toNat d) ++ " " ++ month_name m.toNat ++ " "
      ++ toString d.toNat ++ ordinal d.toNat ++ ", " ++ toString y)

/-- Clock-time substring of an ISO-8601 date-time, embedded from
`get_iso_8601_hh_mm` in `src/time.rs`: `none` when the string is shorter
than 16 bytes or byte 10 is not `T`, else bytes `11..16`. -/
def get_iso_8601_hh_mm (iso : String) : Option (List Char) :=
  if iso.length < 16 ∨ iso.toList.get? 10 ≠ some 'T' then none
  else some ((iso.toList.drop 11).take 5)

/-! ## Render stage call-sites (`src/graphics.rs`)

Each drawing function is embedded as a function of its inputs plus a
boolean per pixel-buffer draw call that records whether the sink reports
a drawing error there.  The result is `none` when the Rust code panics
(an `unwrap` of a failed parse), and `some r` with `r` the returned
`Result` otherwise. -/

/-- Today's-date renderer, embedded from `draw_today_date` in
`src/graphics.rs`: it calls `format_date(date).unwrap()` and then draws
one text box. -/
def draw_today_date (date : String) (sink_err : Bool) : Option (Except AppError Unit) :=
  match format_date date with
  | none => none
  | some _ => if sink_err then some (.error .DisplayError) else some (.ok ())

/-- Sunrise/sunset renderer, embedded from `draw_today_sunrise_sunset`
in `src/graphics.rs`: it calls `get_iso_8601_hh_mm(..).unwrap()` for
each of the two strings and draws two text boxes. -/
def draw_today_sunrise_sunset (sunrise sunset : String) (e1 e2 : Bool) :
    Option (Except AppError Unit) :=
  match get_iso_8601_hh_mm sunrise with
  | none => none
  | some _ =>
    if e1 then some (.error .DisplayError)
    else
      match get_iso_8601_hh_mm sunset with
      | none => none
      | some _ => if e2 then some (.error .DisplayError) else some (.ok ())

/-! ## Payload extractor (`src/weather/mod.rs`) -/

/-- Position of the first byte satisfying `p` (Rust
`Iterator::position`). -/
def find_pos (p : Nat → Bool) : List Nat → Option Nat
  | [] => none
  | x :: xs => if p x then some 0 else (find_pos p xs).map (· + 1)

/-- Position of the first occurrence of the 4-byte sequence CRLFCRLF
(Rust `windows(4).position(|w| w == b"\r\n\r\n")`). -/
def find_crlfcrlf : List Nat → Option Nat
  | a :: b :: c :: d :: rest =>
    if a = 13 ∧ b = 10 ∧ c = 13 ∧ d = 10 then some 0
    else (find_crlfcrlf (b :: c :: d :: rest)).map (· + 1)
  | _ => none

/-- Computed payload start, from `extract_json_payload` in
`src/weather/mod.rs`: just past the first CRLFCRLF if present, else the
first `{` (byte 123) or `[` (byte 91), else 0. -/
def payload_start (buf : List Nat) : Nat :=
  (((find_crlfcrlf buf).map (· + 4)).orElse
    (fun _ => find_pos (fun b => b == 123 || b == 91) buf)).getD 0

/-- Computed payload end, from `extract_json_payload` in
`src/weather/mod.rs`: the first NUL byte if present, else the buffer
length. -/
def payload_end (buf : List Nat) : Nat :=
  (find_pos (fun b => b == 0) buf).getD buf.length

/-- Payload extractor, embedded from `extract_json_payload` in
`src/weather/mod.rs`.  The Rust body ends with the slice
`&buf[start..end]`, which panics (modelled as `none`) unless
`start ≤ end ∧ end ≤ buf.len()`. -/
def extract_json_payload (buf : List Nat) : Option (List Nat) :=
  let s := payload_start buf
  let e := payload_end buf
  if s ≤ e ∧ e ≤ buf.length then some ((buf.drop s).take (e - s)) else none

/-! ## Percent-encoder (`src/weather/http.rs`) -/

/-- RFC 3986 unreserved set (letters, digits, `-`, `.`, `_`, `~`), the
"safe" set named by the specification. -/
def is_url_unreserved (b : Nat) : Bool :=
  (65 ≤ b && b ≤ 90) || (97 ≤ b && b ≤ 122) || (48 ≤ b && b ≤ 57) ||
    b == 45 || b == 46 || b == 95 || b == 126

/-- The `QUERY_ENCODE_SET` of `src/weather/http.rs`: the `CONTROLS` set
of the percent-encoding crate (C0 controls and DEL) plus the listed
punctuation bytes, `~` (126) included. -/
def query_encode_set (b : Nat) : Bool :=
  b < 32 || b == 127 ||
  b == 32 || b == 33 || b == 34 || b == 35 || b == 36 || b == 37 || b == 38 || b == 39 ||
  b == 40 || b == 41 || b == 43 || b == 44 || b == 47 || b == 58 || b == 59 || b == 60 ||
  b == 61 || b == 62 || b == 63 || b == 64 || b == 91 || b == 92 || b == 93 || b == 94 ||
  b == 96 || b == 123 || b == 124 || b == 125 || b == 126

/-- Whether `utf8_percent_encode` escapes byte `b` under
`QUERY_ENCODE_SET`: every non-ASCII byte is always escaped, an ASCII
byte is escaped exactly when it is in the set. -/
def percent_should_encode (b : Nat) : Bool :=
  128 ≤ b || query_encode_set b

/-- Uppercase hexadecimal digit, as produced by the percent-encoding
crate. -/
def hex_digit_upper (n : Nat) : Nat :=
  if n < 10 then 48 + n else 55 + n

/-- Single-byte output of `utf8_percent_encode` under
`QUERY_ENCODE_SET`: `%XX` (uppercase hex) when escaped, the byte itself
otherwise. -/
def percent_encode_byte (b : Nat) : List Nat :=
  if percent_should_encode b then [37, hex_digit_upper (b / 16), hex_digit_upper (b % 16)]
  else [b]

/-- Whole-input percent encoding (byte-by-byte, in order). -/
def url_encode_bytes (bs : List Nat) : List Nat :=
  bs.flatMap percent_encode_byte

/-- Bounded-capacity encoder, embedded from `url_encode_component` in
`src/weather/http.rs`: writing the encoded form into a
`heapless::String<N>` fails with `AppError::Other` on overflow. -/
def url_encode_component (cap : Nat) (bs : List Nat) : Except AppError (List Nat) :=
  let out := url_encode_bytes bs
  if out.length ≤ cap then .ok out else .error .Other

/-! ## Network fetch clients (`src/weather/http.rs`, `src/weather/api.rs`)

The deadline-bounded asynchronous phases are embedded through an oracle
recording the outcome of each network phase: `with_deadline` either
expires (`timeout`) or completes with the inner result, and the receive
loop observes a sequence of socket read events.  Timing itself is not
modelled; a `timeout` outcome stands for the corresponding
`with_deadline` deadline expiring. -/

/-- Outcome of an `embassy_time::with_deadline` wrapper: the deadline
expired, or the wrapped operation finished with a value. -/
inductive DlResult (α : Type) where
  | timeout
  | done (a : α)
deriving DecidableEq, Repr

/-- One socket read event during the receive phase: a successful read of
`n ≥ 1` bytes, a zero-length read (peer closed), or a read error. -/
inductive ReadEv where
  | chunk (bs : List Nat)
  | closed
  | rerr
deriving DecidableEq, Repr

/-- Outcome of a receive loop. -/
inductive RecvOut where
  | ok (bs : List Nat)
  | err
  | timeout
deriving DecidableEq, Repr

/-- Oracle for the network phases of one fetch. -/
structure NetOracle where
  resolve : DlResult (Except Unit (List Nat))
  connect : DlResult (Except Unit Unit)
  send : DlResult (Except Unit Unit)
  recv : List ReadEv
deriving Repr

/-- The network phases a fetch attempts, in order. -/
inductive Phase where
  | resolve
  | connect
  | send
  | recv
deriving DecidableEq, Repr

/-- UTF-8 encoding of one character. -/
def utf8_bytes_char (c : Char) : List Nat :=
  let n := c.toNat
  if n < 128 then [n]
  else if n < 2048 then [192 + n / 64, 128 + n % 64]
  else if n < 65536 then [224 + n / 4096, 128 + (n / 64) % 64, 128 + n % 64]
  else [240 + n / 262144, 128 + (n / 4096) % 64, 128 + (n / 64) % 64, 128 + n % 64]

/-- UTF-8 bytes of a string, as numbers. -/
def str_bytes (s : String) : List Nat :=
  s.toList.flatMap utf8_bytes_char

/-- Request assembly, embedded from `build_http_request` in
`src/weather/http.rs`: the `write!` calls into a `heapless::String<N>`
succeed exactly when the assembled text fits the capacity, and fail with
`AppError::HttpRequestFailed` otherwise. -/
def build_http_request (cap : Nat) (method target host : String)
    (headers body : Option String) : Except AppError String :=
  let req := method ++ " " ++ target ++ " HTTP/1.0\r\nHost: " ++ host ++ "\r\n"
  let req := req ++ headers.getD ""
  let req := match body with
    | some b => req ++ "\r\n" ++ b
    | none => req
  let req := req ++ "\r\n\r\n"
  if req.utf8ByteSize ≤ cap then .ok req else .error .HttpRequestFailed

/-- Receive loop of `http_get` in `src/weather/http.rs`: reads are
appended to a growable response buffer until a zero-length read; a read
error aborts the loop; an exhausted event list stands for the receive
deadline expiring while the loop is still waiting. -/
def recv_accumulate : List ReadEv → List Nat → RecvOut
  | [], _ => .timeout
  | .closed :: _, acc => .ok acc
  | .rerr :: _, _ => .err
  | .chunk bs :: rest, acc => recv_accumulate rest (acc ++ bs)

/-- Receive loop of `fetch_weather_data_with` in `src/weather/api.rs`:
every read lands at the start of the same fixed `[u8; N]` buffer
(`socket.read(&mut buf)` with the byte count discarded), and on close
the whole fixed buffer is returned. -/
def recv_overwrite (n : Nat) : List ReadEv → List Nat → RecvOut
  | [], _ => .timeout
  | .closed :: _, buf => .ok buf
  | .rerr :: _, _ => .err
  | .chunk bs :: rest, buf => recv_overwrite n rest (bs.take n ++ buf.drop (min bs.length n))

/-- `RESOLVE_TIMEOUT` of both fetch clients, in seconds. -/
def RESOLVE_TIMEOUT_SECS : Nat := 5

/-- Fetch client, embedded from `http_get` in `src/weather/http.rs`.
Returns the result (with `none` for a Rust panic: indexing
`ip_addrs[0]` on an empty resolver answer) paired with the list of
network phases attempted, in order. -/
def http_get (host target : String) (headers : Option String) (o : NetOracle) :
    Option (Except AppError (List Nat)) × List Phase :=
  match build_http_request 512 "GET" target host headers none with
  | .error e => (some (.error e), [])
  | .ok _ =>
    match o.resolve with
    | .timeout => (some (.error .RequestTimeout), [.resolve])
    | .done (.error _) => (some (.error .DnsQueryFailed), [.resolve])
    | .done (.ok []) => (none, [.resolve])
    | .done (.ok (_ :: _)) =>
      match o.connect with
      | .timeout => (some (.error .RequestTimeout), [.resolve, .connect])
      | .done (.error _) => (some (.error .ConnectionFailed), [.resolve, .connect])
      | .done (.ok ()) =>
        match o.send with
        | .timeout => (some (.error .RequestTimeout), [.resolve, .connect, .send])
        | .done (.error _) => (some (.error .HttpRequestFailed), [.resolve, .connect, .send])
        | .done (.ok ()) =>
          match recv_accumulate o.recv [] with
          | .ok bs => (some (.ok bs), [.resolve, .connect, .send, .recv])
          | .err => (some (.error .SocketReadError), [.resolve, .connect, .send, .recv])
          | .timeout => (some (.error .RequestTimeout), [.resolve, .connect, .send, .recv])

/-- Percent-encode into a bounded buffer, failing with
`AppError::HttpRequestFailed` on overflow, as the `write!` calls of
`build_open_meteo_request` in `src/weather/api.rs` do. -/
def encode_with_cap (cap : Nat) (s : String) : Except AppError (List Nat) :=
  let e := url_encode_bytes (str_bytes s)
  if e.length ≤ cap then .ok e else .error .HttpRequestFailed

/-- The `daily=` field list of the Open-Meteo query
(`DAILY_FIELDS` in `src/weather/api.rs`). -/
def DAILY_FIELDS : String :=
  "weather_code,temperature_2m_max,temperature_2m_min,sunrise,sunset,wind_speed_10m_max,wind_gusts_10m_max,wind_direction_10m_dominant"

/-- Request assembly, embedded from `build_open_meteo_request` in
`src/weather/api.rs`: latitude and longitude are encoded into 16-byte
buffers, the timezone into a 96-byte buffer, and the whole request into
a 512-byte buffer. -/
def build_open_meteo_request (latitude longitude timezone : String) :
    Except AppError (List Nat) := do
  let latE ← encode_with_cap 16 latitude
  let lonE ← encode_with_cap 16 longitude
  let tzE ← encode_with_cap 96 timezone
  let req := str_bytes "GET /v1/forecast?latitude=" ++ latE
    ++ str_bytes "&longitude=" ++ lonE
    ++ str_bytes "&daily=" ++ str_bytes DAILY_FIELDS
    ++ str_bytes "&timezone=" ++ tzE
    ++ str_bytes " HTTP/1.0\r\nHost: api.open-meteo.com\r\nAccept: application/json\r\n\r\n"
  if req.length ≤ 512 then .ok req else .error .HttpRequestFailed

/-- Fetch client, embedded from `fetch_weather_data_with` in
`src/weather/api.rs` (buffer size `N`).  Phase order differs from
`http_get`: resolve, connect, then request build and send, then the
fixed-buffer receive loop.  A resolve deadline expiry maps to
`AppError::DnsQueryFailed`, a connect expiry to
`AppError::ConnectionFailed`, a send expiry to
`AppError::HttpRequestFailed` and a receive expiry to
`AppError::SocketReadError`. -/
def fetch_weather_data_with (n : Nat) (latitude longitude timezone : String)
    (o : NetOracle) : Option (Except AppError (List Nat)) × List Phase :=
  match o.resolve with
  | .timeout => (some (.error .DnsQueryFailed), [.resolve])
  | .done (.error _) => (some (.error .DnsQueryFailed), [.resolve])
  | .done (.ok []) => (none, [.resolve])
  | .done (.ok (_ :: _)) =>
    match o.connect with
    | .timeout => (some (.error .ConnectionFailed), [.resolve, .connect])
    | .done (.error _) => (some (.error .ConnectionFailed), [.resolve, .connect])
    | .done (.ok ()) =>
      match build_open_meteo_request latitude longitude timezone with
      | .error e => (some (.error e), [.resolve, .connect])
      | .ok _ =>
        match o.send with
        | .timeout => (some (.error .HttpRequestFailed), [.resolve, .connect, .send])
        | .done (.error _) => (some (.error .HttpRequestFailed), [.resolve, .connect, .send])
        | .done (.ok ()) =>
          match recv_overwrite n o.recv (List.replicate n 0) with
          | .ok bs => (some (.ok bs), [.resolve, .connect, .send, .recv])
          | .err => (some (.error .SocketReadError), [.resolve, .connect, .send, .recv])
          | .timeout => (some (.error .SocketReadError), [.resolve, .connect, .send, .recv])

/-! ## Bounded forecast decoder (`src/weather/model.rs`)

Modelled from the spec: the schema-directed, capacity-bounded decode of
`serde_json_core::from_slice::<OpenMeteoResponse>` (the crate is an
external dependency, not part of the repository sources).  The textual
JSON parsing stage is abstracted to a structured `Json` value; numeric
literals carry an opaque `Int` payload.  Every string field decodes into
a capacity-bounded buffer, every array field into a capacity-bounded
sequence, and any missing required field, type mismatch or over-capacity
datum makes the whole decode fail; the decoder is a total function, so
no panic and no partially-built forecast is possible. -/

/-- A structured JSON value. -/
inductive Json where
  | null
  | bool (b : Bool)
  | num (n : Int)
  | str (s : String)
  | arr (elems : List Json)
  | obj (fields : List (String × Json))

/-- Decode failure, the `DecodeError` of the specification. -/
inductive DecodeError where
  | missingField
  | typeMismatch
  | capacityExceeded
deriving DecidableEq, Repr

/-- `MAX_DAYS` from `src/weather/model.rs`. -/
def MAX_DAYS : Nat := 7

/-- `BUF_LEN` from `src/weather/model.rs`. -/
def BUF_LEN : Nat := 32

/-- `TZ_ABBR_LEN` from `src/weather/model.rs`. -/
def TZ_ABBR_LEN : Nat := 8

/-- Unit-label strings, embedded from `DailyUnits` in
`src/weather/model.rs` (each a `heapless::String<32>`). -/
structure DailyUnits where
  time : String
  weather_code : String
  temperature_2m_max : String
  temperature_2m_min : String
  sunrise : String
  sunset : String
  wind_speed_10m_max : String
  wind_direction_10m_dominant : String
deriving DecidableEq, Repr

/-- Daily parallel sequences, embedded from `Daily` in
`src/weather/model.rs` (each a `heapless::Vec<_, 7>`; `f32` entries
carried as opaque `Int`). -/
structure Daily where
  time : List String
  weather_code : List Int
  temperature_2m_max : List Int
  temperature_2m_min : List Int
  sunrise : List String
  sunset : List String
  wind_speed_10m_max : List Int
  wind_direction_10m_dominant : List Int
deriving DecidableEq, Repr

/-- The parsed response, embedded from `OpenMeteoResponse` in
`src/weather/model.rs`. -/
structure OpenMeteoResponse where
  latitude : Int
  longitude : Int
  generationtime_ms : Int
  utc_offset_seconds : Int
  timezone : String
  timezone_abbreviation : String
  elevation : Int
  daily_units : DailyUnits
  daily : Daily
deriving DecidableEq, Repr

/-- First value bound to key `k` in a JSON object's field list. -/
def jget (fields : List (String × Json)) (k : String) : Option Json :=
  (fields.find? (fun p => p.1 == k)).map (fun p => p.2)

/-- Look up a required field of a JSON object. -/
def getField (j : Json) (k : String) : Except DecodeError Json :=
  match j with
  | .obj fs =>
    match jget fs k with
    | some v => .ok v
    | none => .error .missingField
  | _ => .error .typeMismatch

/-- Decode a string into a capacity-bounded buffer (`heapless::String`):
a type mismatch if the value is not a string, a failure (never a
truncation) if its UTF-8 size exceeds the capacity. -/
def decodeString (cap : Nat) (j : Json) : Except DecodeError String :=
  match j with
  | .str s => if s.utf8ByteSize ≤ cap then .ok s else .error .capacityExceeded
  | _ => .error .typeMismatch

/-- Decode a numeric literal (carrier for both `f32` and `i32` fields). -/
def decodeNumber (j : Json) : Except DecodeError Int :=
  match j with
  | .num n => .ok n
  | _ => .error .typeMismatch

/-- Decode every element of a JSON array, in order, failing on the
first element failure. -/
def decodeElems {α : Type} (d : Json → Except DecodeError α) :
    List Json → Except DecodeError (List α)
  | [] => .ok []
  | x :: xs => do
    let a ← d x
    let as ← decodeElems d xs
    .ok (a :: as)

/-- Decode an array into a capacity-bounded sequence
(`heapless::Vec<_, cap>`): a type mismatch if the value is not an array,
a failure (never a truncation) if it holds more elements than the
capacity. -/
def decodeVec {α : Type} (cap : Nat) (d : Json → Except DecodeError α) (j : Json) :
    Except DecodeError (List α) :=
  match j with
  | .arr xs => if xs.length ≤ cap then decodeElems d xs else .error .capacityExceeded
  | _ => .error .typeMismatch

/-- Decode the `daily_units` object. -/
def decodeDailyUnits (j : Json) : Except DecodeError DailyUnits := do
  let time ← getField j "time" >>= decodeString BUF_LEN
  let weather_code ← getField j "weather_code" >>= decodeString BUF_LEN
  let temperature_2m_max ← getField j "temperature_2m_max" >>= decodeString BUF_LEN
  let temperature_2m_min ← getField j "temperature_2m_min" >>= decodeString BUF_LEN
  let sunrise ← getField j "sunrise" >>= decodeString BUF_LEN
  let sunset ← getField j "sunset" >>= decodeString BUF_LEN
  let wind_speed_10m_max ← getField j "wind_speed_10m_max" >>= decodeString BUF_LEN
  let wind_direction_10m_dominant ←
    getField j "wind_direction_10m_dominant" >>= decodeString BUF_LEN
  .ok { time, weather_code, temperature_2m_max, temperature_2m_min, sunrise, sunset,
        wind_speed_10m_max, wind_direction_10m_dominant }

/-- Decode the `daily` object. -/
def decodeDaily (j : Json) : Except DecodeError Daily := do
  let time ← getField j "time" >>= decodeVec MAX_DAYS (decodeString BUF_LEN)
  let weather_code ← getField j "weather_code" >>= decodeVec MAX_DAYS decodeNumber
  let temperature_2m_max ← getField j "temperature_2m_max" >>= decodeVec MAX_DAYS decodeNumber
  let temperature_2m_min ← getField j "temperature_2m_min" >>= decodeVec MAX_DAYS decodeNumber
  let sunrise ← getField j "sunrise" >>= decodeVec MAX_DAYS (decodeString BUF_LEN)
  let sunset ← getField j "sunset" >>= decodeVec MAX_DAYS (decodeString BUF_LEN)
  let wind_speed_10m_max ← getField j "wind_speed_10m_max" >>= decodeVec MAX_DAYS decodeNumber
  let wind_direction_10m_dominant ←
    getField j "wind_direction_10m_dominant" >>= decodeVec MAX_DAYS decodeNumber
  .ok { time, weather_code, temperature_2m_max, temperature_2m_min, sunrise, sunset,
        wind_speed_10m_max, wind_direction_10m_dominant }

/-- Decode a whole `OpenMeteoResponse` (the `TryFrom` impl in
`src/weather/model.rs`, with the textual stage abstracted): all-or-
nothing, a total function into `Except`. -/
def decodeOpenMeteo (j : Json) : Except DecodeError OpenMeteoResponse := do
  let latitude ← getField j "latitude" >>= decodeNumber
  let longitude ← getField j "longitude" >>= decodeNumber
  let generationtime_ms ← getField j "generationtime_ms" >>= decodeNumber
  let utc_offset_seconds ← getField j "utc_offset_seconds" >>= decodeNumber
  let timezone ← getField j "timezone" >>= decodeString BUF_LEN
  let timezone_abbreviation ←
    getField j "timezone_abbreviation" >>= decodeString TZ_ABBR_LEN
  let elevation ← getField j "elevation" >>= decodeNumber
  let daily_units ← getField j "daily_units" >>= decodeDailyUnits
  let daily ← getField j "daily" >>= decodeDaily
  .ok { latitude, longitude, generationtime_ms, utc_offset_seconds, timezone,
        timezone_abbreviation, elevation, daily_units, daily }

/-- A string value within its byte capacity. -/
def StrOk (cap : Nat) (j : Json) (s : String) : Prop :=
  j = .str s ∧ s.utf8ByteSize ≤ cap

/-- A numeric value. -/
def NumOk (j : Json) (n : Int) : Prop :=
  j = .num n

/-- A bounded array of capacity-bounded strings, decoded without
truncation: the decoded list mirrors the source array element by
element. -/
def VecStrOk (cap : Nat) (j : Json) (ss : List String) : Prop :=
  ∃ xs, j = .arr xs ∧ xs.length ≤ MAX_DAYS ∧
    List.Forall₂ (fun x s => StrOk cap x s) xs ss

/-- A bounded array of numeric values, decoded without truncation. -/
def VecNumOk (j : Json) (ns : List Int) : Prop :=
  ∃ xs, j = .arr xs ∧ xs.length ≤ MAX_DAYS ∧
    List.Forall₂ (fun x n => NumOk x n) xs ns

/-- A required field is present and its value satisfies `P`. -/
def FieldOk (j : Json) (k : String) (P : Json → Prop) : Prop :=
  ∃ v, getField j k = .ok v ∧ P v

/-- What a successful decode guarantees about the payload and the
produced forecast: every required field is present with the right JSON
type, every bounded sequence holds at most `MAX_DAYS = 7` elements and
is reproduced in full (no truncation), and every bounded string respects
its byte capacity (32 bytes, 8 for the timezone abbreviation). -/
def Conforms (j : Json) (f : OpenMeteoResponse) : Prop :=
  FieldOk j "latitude" (fun v => NumOk v f.latitude) ∧
  FieldOk j "longitude" (fun v => NumOk v f.longitude) ∧
  FieldOk j "generationtime_ms" (fun v => NumOk v f.generationtime_ms) ∧
  FieldOk j "utc_offset_seconds" (fun v => NumOk v f.utc_offset_seconds) ∧
  FieldOk j "timezone" (fun v => StrOk BUF_LEN v f.timezone) ∧
  FieldOk j "timezone_abbreviation" (fun v => StrOk TZ_ABBR_LEN v f.timezone_abbreviation) ∧
  FieldOk j "elevation" (fun v => NumOk v f.elevation) ∧
  FieldOk j "daily_units" (fun u =>
    FieldOk u "time" (fun v => StrOk BUF_LEN v f.daily_units.time) ∧
    FieldOk u "weather_code" (fun v => StrOk BUF_LEN v f.daily_units.weather_code) ∧
    FieldOk u "temperature_2m_max" (fun v => StrOk BUF_LEN v f.daily_units.temperature_2m_max) ∧
    FieldOk u "temperature_2m_min" (fun v => StrOk BUF_LEN v f.daily_units.temperature_2m_min) ∧
    FieldOk u "sunrise" (fun v => StrOk BUF_LEN v f.daily_units.sunrise) ∧
    FieldOk u "sunset" (fun v => StrOk BUF_LEN v f.daily_units.sunset) ∧
    FieldOk u "wind_speed_10m_max" (fun v => StrOk BUF_LEN v f.daily_units.wind_speed_10m_max) ∧
    FieldOk u "wind_direction_10m_dominant"
      (fun v => StrOk BUF_LEN v f.daily_units.wind_direction_10m_dominant)) ∧
  FieldOk j "daily" (fun d =>
    FieldOk d "time" (fun v => VecStrOk BUF_LEN v f.daily.time) ∧
    FieldOk d "weather_code" (fun v => VecNumOk v f.daily.weather_code) ∧
    FieldOk d "temperature_2m_max" (fun v => VecNumOk v f.daily.temperature_2m_max) ∧
    FieldOk d "temperature_2m_min" (fun v => VecNumOk v f.daily.temperature_2m_min) ∧
    FieldOk d "sunrise" (fun v => VecStrOk BUF_LEN v f.daily.sunrise) ∧
    FieldOk d "sunset" (fun v => VecStrOk BUF_LEN v f.daily.sunset) ∧
    FieldOk d "wind_speed_10m_max" (fun v => VecNumOk v f.daily.wind_speed_10m_max) ∧
    FieldOk d "wind_direction_10m_dominant"
      (fun v => VecNumOk v f.daily.wind_direction_10m_dominant))

/-- The names of the eight parallel arrays inside `daily`. -/
def daily_array_fields : List String :=
  ["time", "weather_code", "temperature_2m_max", "temperature_2m_min",
   "sunrise", "sunset", "wind_speed_10m_max", "wind_direction_10m_dominant"]

/-! ## Future-days strip (`src/graphics.rs`) -/

/-- One rendered future-day entry: the loop body of
`draw_future_weather_view` for day index `i` anchors at
`Point::new(191, 15 + (i - 1) * 18)` and draws the Sakamoto day-of-week
abbreviation, a 20 px icon and the min/max temperatures. -/
structure FutureEntry where
  day : Nat
  anchor_x : Int
  anchor_y : Int
  dow : String
  icon : Int
  temp_min : Int
  temp_max : Int
deriving DecidableEq, Repr

/-- Loop body of `draw_future_weather_view` in `src/graphics.rs` for a
single day index `i`: `none` models the panics of the Rust body
(`get(i).unwrap()`, slicing `date[0..4]` and friends out of range,
`parse().unwrap()`, the Sakamoto table lookup, direct indexing of the
temperature arrays). -/
def future_entry (w : OpenMeteoResponse) (i : Nat) : Option FutureEntry := do
  let date ← w.daily.time.get? i
  let ycs ← str_slice date 0 4
  let y ← parse_int_chars ycs
  let mcs ← str_slice date 5 7
  let m ← parse_int_chars mcs
  let dcs ← str_slice date 8 10
  let d ← parse_int_chars dcs
  let dow ← day_of_week_sakamoto y m d
  let code ← w.daily.weather_code.get? i
  let tmin ← w.daily.temperature_2m_min.get? i
  let tmax ← w.daily.temperature_2m_max.get? i
  some { day := i, anchor_x := 191, anchor_y := 15 + ((i : Int) - 1) * 18,
         dow := dow, icon := weather_code_to_icon_index code,
         temp_min := tmin, temp_max := tmax }

/-- Decode the loop body results for a list of day indices, in order
(the `for i in 1..days` loop of `draw_future_weather_view`, stopping at
the first panic). -/
def future_entries (w : OpenMeteoResponse) : List Nat → Option (List FutureEntry)
  | [] => some []
  | i :: is => do
    let e ← future_entry w i
    let es ← future_entries w is
    some (e :: es)

/-- Future-days strip, embedded from `draw_future_weather_view` in
`src/graphics.rs`: takes the last character of the temperature unit
string (`unwrap` panics on an empty unit string) and runs the loop body
for each day index `1 .. days`. -/
def draw_future_weather_view (w : OpenMeteoResponse) : Option (List FutureEntry) := do
  let _tu ← w.daily_units.temperature_2m_max.toList.getLast?
  future_entries w (List.range' 1 (w.daily.time.length - 1))

/-! ## Concrete sample inputs -/

/-- The raw bytes of
`HTTP/1.0 200 OK CRLF Content-Type: application/json CRLF CRLF`
followed by the seven JSON bytes of a one-field object and three
trailing NUL bytes (the §8 extractor example). -/
def sample_http_response : List Nat :=
  [72, 84, 84, 80, 47, 49, 46, 48, 32, 50, 48, 48, 32, 79, 75, 13, 10,
   67, 111, 110, 116, 101, 110, 116, 45, 84, 121, 112, 101, 58, 32,
   97, 112, 112, 108, 105, 99, 97, 116, 105, 111, 110, 47, 106, 115, 111, 110,
   13, 10, 13, 10, 123, 34, 97, 34, 58, 49, 125, 0, 0, 0]

/-- The expected extracted payload of `sample_http_response`. -/
def sample_payload : List Nat :=
  [123, 34, 97, 34, 58, 49, 125]

/-- A well-formed two-day Open-Meteo response as a structured JSON
value. -/
def sample_response_json : Json :=
  .obj [
    ("latitude", .num 39),
    ("longitude", .num (-104)),
    ("generationtime_ms", .num 0),
    ("utc_offset_seconds", .num (-21600)),
    ("timezone", .str "America/Denver"),
    ("timezone_abbreviation", .str "MDT"),
    ("elevation", .num 1609),
    ("daily_units", .obj [
      ("time", .str "iso8601"),
      ("weather_code", .str "wmo code"),
      ("temperature_2m_max", .str "°C"),
      ("temperature_2m_min", .str "°C"),
      ("sunrise", .str "iso8601"),
      ("sunset", .str "iso8601"),
      ("wind_speed_10m_max", .str "km/h"),
      ("wind_direction_10m_dominant", .str "°")]),
    ("daily", .obj [
      ("time", .arr [.str "2024-06-01", .str "2024-06-02"]),
      ("weather_code", .arr [.num 63, .num 0]),
      ("temperature_2m_max", .arr [.num 25, .num 27]),
      ("temperature_2m_min", .arr [.num 12, .num 13]),
      ("sunrise", .arr [.str "2024-06-01T05:32", .str "2024-06-02T05:32"]),
      ("sunset", .arr [.str "2024-06-01T20:29", .str "2024-06-02T20:30"]),
      ("wind_speed_10m_max", .arr [.num 15, .num 18]),
      ("wind_direction_10m_dominant", .arr [.num 180, .num 200])])]

/-- Realistic daily unit labels. -/
def sample_units : DailyUnits :=
  { time := "iso8601", weather_code := "wmo code",
    temperature_2m_max := "°C", temperature_2m_min := "°C",
    sunrise := "iso8601", sunset := "iso8601",
    wind_speed_10m_max := "km/h", wind_direction_10m_dominant := "°" }

/-- The daily series of `sample_response_json`. -/
def sample_daily : Daily :=
  { time := ["2024-06-01", "2024-06-02"], weather_code := [63, 0],
    temperature_2m_max := [25, 27], temperature_2m_min := [12, 13],
    sunrise := ["2024-06-01T05:32", "2024-06-02T05:32"],
    sunset := ["2024-06-01T20:29", "2024-06-02T20:30"],
    wind_speed_10m_max := [15, 18], wind_direction_10m_dominant := [180, 200] }

/-- The forecast `sample_response_json` decodes to. -/
def sample_forecast : OpenMeteoResponse :=
  { latitude := 39, longitude := -104, generationtime_ms := 0,
    utc_offset_seconds := -21600, timezone := "America/Denver",
    timezone_abbreviation := "MDT", elevation := 1609,
    daily_units := sample_units, daily := sample_daily }

/-- A well-formed three-day daily series. -/
def sample_daily3 : Daily :=
  { time := ["2024-06-01", "2024-06-02", "2024-06-03"],
    weather_code := [63, 61, 80],
    temperature_2m_max := [25, 27, 24], temperature_2m_min := [12, 13, 11],
    sunrise := ["2024-06-01T05:32", "2024-06-02T05:32", "2024-06-03T05:31"],
    sunset := ["2024-06-01T20:29", "2024-06-02T20:30", "2024-06-03T20:31"],
    wind_speed_10m_max := [15, 18, 12],
    wind_direction_10m_dominant := [180, 200, 220] }

/-- A well-formed three-day forecast (for the future-days strip). -/
def sample_forecast3 : OpenMeteoResponse :=
  { latitude := 39, longitude := -104, generationtime_ms := 0,
    utc_offset_seconds := -21600, timezone := "America/Denver",
    timezone_abbreviation := "MDT", elevation := 1609,
    daily_units := sample_units, daily := sample_daily3 }

/-- A network oracle whose resolve phase hits its deadline. -/
def resolve_timeout_oracle : NetOracle :=
  { resolve := .timeout, connect := .done (.ok ()), send := .done (.ok ()), recv := [] }

/-- A network oracle delivering two non-empty reads and then a peer
close. -/
def two_chunk_oracle : NetOracle :=
  { resolve := .done (.ok [1]), connect := .done (.ok ()), send := .done (.ok ()),
    recv := [.chunk [97, 98], .chunk [99, 100], .closed] }

/-! ## Helper lemmas -/

theorem find_pos_some_spec (p : Nat → Bool) :
    ∀ (l : List Nat) (i : Nat), find_pos p l = some i →
      ∃ b, l.get? i = some b ∧ p b = true ∧
        ∀ j, j < i → ∀ b', l.get? j = some b' → p b' = false := by
  intro l
  induction l with
  | nil => intro i h; simp [find_pos] at h
  | cons x xs ih =>
    intro i h
    by_cases hx : p x
    · simp [find_pos, hx] at h
      subst h
      exact ⟨x, rfl, hx, fun j hj => absurd hj (Nat.not_lt_zero j)⟩
    · simp [find_pos, hx, Option.map_eq_some'] at h
      obtain ⟨i', hi', rfl⟩ := h
      obtain ⟨b, hb, hpb, hprev⟩ := ih i' hi'
      refine ⟨b, by simpa using hb, hpb, fun j hj b' hb' => ?_⟩
      cases j with
      | zero =>
        simp at hb'
        subst hb'
        simpa using hx
      | succ j' =>
        exact hprev j' (by omega) b' (by simpa using hb')

theorem payload_end_le_length (buf : List Nat) : payload_end buf ≤ buf.length := by
  unfold payload_end
  cases h : find_pos (fun b => b == 0) buf with
  | none => simp
  | some i =>
    obtain ⟨b, hb, -, -⟩ := find_pos_some_spec _ buf i h
    have : i < buf.length := (List.get?_eq_some.mp hb).1
    simpa using this.le

theorem find_crlfcrlf_some_spec (l : List Nat) (i : Nat) (h : find_crlfcrlf l = some i) :
    (l.drop i).take 4 = [13, 10, 13, 10] ∧
      ∀ j, j < i → (l.drop j).take 4 ≠ [13, 10, 13, 10] := by
  induction l using find_crlfcrlf.induct generalizing i with
  | case1 a b c d rest hcond =>
    obtain ⟨ha, hb, hc, hd⟩ := hcond
    simp [find_crlfcrlf, ha, hb, hc, hd] at h
    subst h
    exact ⟨by simp [ha, hb, hc, hd], fun j hj => absurd hj (Nat.not_lt_zero j)⟩
  | case2 a b c d rest hcond ih =>
    rw [find_crlfcrlf, if_neg hcond, Option.map_eq_some'] at h
    obtain ⟨i', hi', rfl⟩ := h
    obtain ⟨htake, hprev⟩ := ih i' hi'
    refine ⟨by simpa using htake, fun j hj => ?_⟩
    cases j with
    | zero =>
      simp only [List.drop_zero, List.take_succ_cons]
      intro heq
      apply hcond
      have h4 : [a, b, c, d] = [13, 10, 13, 10] := by
        simpa using heq
      simp at h4
      exact ⟨h4.1, h4.2.1, h4.2.2.1, h4.2.2.2⟩
    | succ j' =>
      have := hprev j' (by omega)
      simpa using this
  | case3 l hshape =>
    rw [find_crlfcrlf.eq_def] at h
    rcases l with _ | ⟨a, _ | ⟨b, _ | ⟨c, _ | ⟨d, rest⟩⟩⟩⟩
    · simp at h
    · simp at h
    · simp at h
    · simp at h
    · exact (hshape a b c d rest rfl).elim

theorem drop_take_infix (l : List Nat) (s k : Nat) :
    ∃ pre post, l = pre ++ ((l.drop s).take k ++ post) := by
  refine ⟨l.take s, (l.drop s).drop k, ?_⟩
  rw [List.take_append_drop, List.take_append_drop]

theorem except_bind_ok {ε α β : Type} (x : Except ε α) (g : α → Except ε β) (b : β) :
    (x >>= g) = Except.ok b ↔ ∃ a, x = Except.ok a ∧ g a = Except.ok b := by
  cases x <;> simp [Bind.bind, Except.bind]

theorem recv_accumulate_ok :
    ∀ (evs : List ReadEv) (acc bs : List Nat), recv_accumulate evs acc = .ok bs →
      ∃ (pre : List (List Nat)) (rest : List ReadEv),
        evs = pre.map ReadEv.chunk ++ ReadEv.closed :: rest ∧
        bs = acc ++ pre.flatten := by
  intro evs
  induction evs with
  | nil => intro acc bs h; simp [recv_accumulate] at h
  | cons ev rest ih =>
    intro acc bs h
    cases ev with
    | closed =>
      simp [recv_accumulate] at h
      exact ⟨[], rest, by simp, by simp [h]⟩
    | rerr => simp [recv_accumulate] at h
    | chunk c =>
      rw [recv_accumulate] at h
      obtain ⟨pre', rest', hev, hbs⟩ := ih (acc ++ c) bs h
      exact ⟨c :: pre', rest', by simp [hev], by simp [hbs]⟩

theorem future_entry_fields (w : OpenMeteoResponse) (i : Nat) (e : FutureEntry)
    (h : future_entry w i = some e) :
    e.day = i ∧ e.anchor_x = 191 ∧ e.anchor_y = 15 + ((i : Int) - 1) * 18 := by
  simp only [future_entry, Option.bind_eq_bind, Option.bind_eq_some',
    Option.some.injEq] at h
  obtain ⟨date, -, ycs, -, y, -, mcs, -, m, -, dcs, -, d, -, dow, -, code, -,
    tmin, -, tmax, -, he⟩ := h
  subst he
  exact ⟨rfl, rfl, rfl⟩

theorem future_entries_range' (w : OpenMeteoResponse) :
    ∀ (m s : Nat), (∀ i, s ≤ i → i < s + m → (future_entry w i).isSome = true) →
      ∃ es, future_entries w (List.range' s m) = some es ∧ es.length = m ∧
        ∀ k, (hk : k < m) → ∃ e, future_entry w (s + k) = some e ∧
          es.get? k = some e := by
  intro m
  induction m with
  | zero => exact fun s _ => ⟨[], rfl, rfl, fun k hk => absurd hk (Nat.not_lt_zero k)⟩
  | succ m ih =>
    intro s hall
    have hs : (future_entry w s).isSome = true := hall s le_rfl (by omega)
    obtain ⟨e, he⟩ := Option.isSome_iff_exists.mp hs
    obtain ⟨es, hes, hlen, hget⟩ := ih (s + 1) (fun i h1 h2 => hall i (by omega) (by omega))
    refine ⟨e :: es, ?_, by simp [hlen], fun k hk => ?_⟩
    · rw [List.range'_succ]
      simp only [future_entries, Option.bind_eq_bind, Option.bind_eq_some',
        Option.some.injEq]
      exact ⟨e, he, es, hes, rfl⟩
    · cases k with
      | zero => exact ⟨e, by simpa using he, rfl⟩
      | succ k' =>
        obtain ⟨e', he', hget'⟩ := hget k' (by omega)
        refine ⟨e', ?_, by simpa using hget'⟩
        have : s + (k' + 1) = s + 1 + k' := by omega
        rw [this]
        exact he'

/-! ## Claim C8: totality of the weather-code icon mapping -/

set_option maxHeartbeats 2000000 in
/-- Claim C8: `weather_code_to_icon_index` is total on `Int`: every
code, including negative and unmapped values, yields an index in
`0..=8`, following the icon table, with explicit fallback 0. -/
theorem weather_code_icon_table :
    (∀ c : Int, 0 ≤ weather_code_to_icon_index c ∧ weather_code_to_icon_index c ≤ 8) ∧
    weather_code_to_icon_index 0 = 0 ∧
    weather_code_to_icon_index 1 = 1 ∧
    weather_code_to_icon_index 2 = 2 ∧
    weather_code_to_icon_index 3 = 3 ∧
    (∀ c : Int, c = 61 ∨ c = 63 ∨ c = 65 → weather_code_to_icon_index c = 4) ∧
    (∀ c : Int, c = 51 ∨ c = 53 ∨ c = 55 ∨ c = 80 ∨ c = 81 ∨ c = 82 →
      weather_code_to_icon_index c = 5) ∧
    (∀ c : Int, c = 95 ∨ c = 96 ∨ c = 99 → weather_code_to_icon_index c = 6) ∧
    (∀ c : Int, c = 56 ∨ c = 57 ∨ c = 66 ∨ c = 67 ∨ c = 71 ∨ c = 73 ∨ c = 75 ∨
      c = 77 ∨ c = 85 ∨ c = 86 → weather_code_to_icon_index c = 7) ∧
    (∀ c : Int, c = 45 ∨ c = 48 → weather_code_to_icon_index c = 8) ∧
    (∀ c : Int, ¬(c = 0 ∨ c = 1 ∨ c = 2 ∨ c = 3 ∨ c = 45 ∨ c = 48 ∨ c = 51 ∨ c = 53 ∨
        c = 55 ∨ c = 56 ∨ c = 57 ∨ c = 61 ∨ c = 63 ∨ c = 65 ∨ c = 66 ∨ c = 67 ∨
        c = 71 ∨ c = 73 ∨ c = 75 ∨ c = 77 ∨ c = 80 ∨ c = 81 ∨ c = 82 ∨ c = 85 ∨
        c = 86 ∨ c = 95 ∨ c = 96 ∨ c = 99) →
      weather_code_to_icon_index c = 0) := by
  have hbound : ∀ c : Int,
      0 ≤ weather_code_to_icon_index c ∧ weather_code_to_icon_index c ≤ 8 := by
    intro c
    unfold weather_code_to_icon_index
    split_ifs <;> omega
  have h4 : ∀ c : Int, c = 61 ∨ c = 63 ∨ c = 65 → weather_code_to_icon_index c = 4 := by
    intro c h
    rcases h with h | h | h <;> subst h <;> decide
  have h5 : ∀ c : Int, c = 51 ∨ c = 53 ∨ c = 55 ∨ c = 80 ∨ c = 81 ∨ c = 82 →
      weather_code_to_icon_index c = 5 := by
    intro c h
    rcases h with h | h | h | h | h | h <;> subst h <;> decide
  have h6 : ∀ c : Int, c = 95 ∨ c = 96 ∨ c = 99 → weather_code_to_icon_index c = 6 := by
    intro c h
    rcases h with h | h | h <;> subst h <;> decide
  have h7 : ∀ c : Int, c = 56 ∨ c = 57 ∨ c = 66 ∨ c = 67 ∨ c = 71 ∨ c = 73 ∨ c = 75 ∨
      c = 77 ∨ c = 85 ∨ c = 86 → weather_code_to_icon_index c = 7 := by
    intro c h
    rcases h with h | h | h | h | h | h | h | h | h | h <;> subst h <;> decide
  have h8 : ∀ c : Int, c = 45 ∨ c = 48 → weather_code_to_icon_index c = 8 := by
    intro c h
    rcases h with h | h <;> subst h <;> decide
  have h0 : ∀ c : Int, ¬(c = 0 ∨ c = 1 ∨ c = 2 ∨ c = 3 ∨ c = 45 ∨ c = 48 ∨ c = 51 ∨ c = 53 ∨
      c = 55 ∨ c = 56 ∨ c = 57 ∨ c = 61 ∨ c = 63 ∨ c = 65 ∨ c = 66 ∨ c = 67 ∨
      c = 71 ∨ c = 73 ∨ c = 75 ∨ c = 77 ∨ c = 80 ∨ c = 81 ∨ c = 82 ∨ c = 85 ∨
      c = 86 ∨ c = 95 ∨ c = 96 ∨ c = 99) → weather_code_to_icon_index c = 0 := by
    intro c h
    unfold weather_code_to_icon_index
    split_ifs <;> first | rfl | omega
  exact ⟨hbound, by decide, by decide, by decide, by decide, h4, h5, h6, h7, h8, h0⟩

/-- Claim C8 witness: an unmapped code falls back to icon 0, and a
mapped rain code yields icon 4. -/
theorem weather_code_icon_table_witness :
    weather_code_to_icon_index 63 = 4 ∧ weather_code_to_icon_index (-7) = 0 := by
  refine ⟨weather_code_icon_table.2.2.2.2.2.1 63 ?_,
    weather_code_icon_table.2.2.2.2.2.2.2.2.2.2 (-7) ?_⟩
  · exact Or.inr (Or.inl rfl)
  · decide

/-! ## Claim C9: wind-direction compass bucketing -/

set_option maxHeartbeats 2000000 in
/-- Claim C9: `wind_dir_text` buckets degrees into the eight compass
points by the half-open sectors of the source, with inclusive lower
bounds and wrap-around back to north. -/
theorem wind_dir_sectors :
    (∀ d : Int, 0 ≤ d → d < 22 → wind_dir_text d = "N") ∧
    (∀ d : Int, 22 ≤ d → d < 67 → wind_dir_text d = "NE") ∧
    (∀ d : Int, 67 ≤ d → d < 122 → wind_dir_text d = "E") ∧
    (∀ d : Int, 122 ≤ d → d < 157 → wind_dir_text d = "SE") ∧
    (∀ d : Int, 157 ≤ d → d < 202 → wind_dir_text d = "S") ∧
    (∀ d : Int, 202 ≤ d → d < 247 → wind_dir_text d = "SW") ∧
    (∀ d : Int, 247 ≤ d → d < 293 → wind_dir_text d = "W") ∧
    (∀ d : Int, 293 ≤ d → d < 337 → wind_dir_text d = "NW") ∧
    (∀ d : Int, 337 ≤ d → d < 360 → wind_dir_text d = "N") ∧
    wind_dir_text 0 = "N" ∧ wind_dir_text 22 = "NE" ∧
    wind_dir_text 44 = "NE" ∧ wind_dir_text 359 = "N" := by
  have hN : ∀ d : Int, 0 ≤ d → d < 22 → wind_dir_text d = "N" := by
    intro d h1 h2; unfold wind_dir_text; split_ifs <;> first | rfl | (exfalso; omega)
  have hNE : ∀ d : Int, 22 ≤ d → d < 67 → wind_dir_text d = "NE" := by
    intro d h1 h2; unfold wind_dir_text; split_ifs <;> first | rfl | (exfalso; omega)
  have hE : ∀ d : Int, 67 ≤ d → d < 122 → wind_dir_text d = "E" := by
    intro d h1 h2; unfold wind_dir_text; split_ifs <;> first | rfl | (exfalso; omega)
  have hSE : ∀ d : Int, 122 ≤ d → d < 157 → wind_dir_text d = "SE" := by
    intro d h1 h2; unfold wind_dir_text; split_ifs <;> first | rfl | (exfalso; omega)
  have hS : ∀ d : Int, 157 ≤ d → d < 202 → wind_dir_text d = "S" := by
    intro d h1 h2; unfold wind_dir_text; split_ifs <;> first | rfl | (exfalso; omega)
  have hSW : ∀ d : Int, 202 ≤ d → d < 247 → wind_dir_text d = "SW" := by
    intro d h1 h2; unfold wind_dir_text; split_ifs <;> first | rfl | (exfalso; omega)
  have hW : ∀ d : Int, 247 ≤ d → d < 293 → wind_dir_text d = "W" := by
    intro d h1 h2; unfold wind_dir_text; split_ifs <;> first | rfl | (exfalso; omega)
  have hNW : ∀ d : Int, 293 ≤ d → d < 337 → wind_dir_text d = "NW" := by
    intro d h1 h2; unfold wind_dir_text; split_ifs <;> first | rfl | (exfalso; omega)
  have hWrap : ∀ d : Int, 337 ≤ d → d < 360 → wind_dir_text d = "N" := by
    intro d h1 h2; unfold wind_dir_text; split_ifs <;> first | rfl | (exfalso; omega)
  exact ⟨hN, hNE, hE, hSE, hS, hSW, hW, hNW, hWrap, by decide, by decide, by decide, by decide⟩

/-- Claim C9 witness: the lower sector bound is inclusive and the last
degree wraps to north. -/
theorem wind_dir_sectors_witness :
    wind_dir_text 22 = "NE" ∧ wind_dir_text 359 = "N" :=
  ⟨wind_dir_sectors.2.1 22 (by decide) (by decide),
   wind_dir_sectors.2.2.2.2.2.2.2.2.1 359 (by decide) (by decide)⟩

/-! ## Claim C2: the percent-encoder's escaped set -/

/-- Claim C2 counterexample: the encoder does not escape exactly the
complement of the unreserved set.  `*` (byte 42) is outside the
unreserved set yet passes through unescaped, while `~` (byte 126) is
unreserved yet is escaped to `%7E`. -/
theorem percent_encode_not_unreserved_complement :
    is_url_unreserved 42 = false ∧ percent_encode_byte 42 = [42] ∧
    is_url_unreserved 126 = true ∧ percent_encode_byte 126 = [37, 55, 69] ∧
    url_encode_bytes [42, 126] = [42, 37, 55, 69] := by
  decide

set_option maxRecDepth 4096 in
/-- Claim C2 (amended): byte by byte, the encoder escapes exactly the
bytes of `QUERY_ENCODE_SET` plus every non-ASCII byte — that is, every
byte outside the unreserved set except `*` (42), plus the unreserved
`~` (126) — and an escaped byte becomes `%XX` with uppercase hex. -/
theorem percent_encode_set_exact :
    ∀ b : Nat, b < 256 →
      (percent_should_encode b = true ↔
        ((is_url_unreserved b = false ∧ b ≠ 42) ∨ b = 126)) ∧
      (percent_should_encode b = true →
        percent_encode_byte b = [37, hex_digit_upper (b / 16), hex_digit_upper (b % 16)]) ∧
      (percent_should_encode b = false → percent_encode_byte b = [b]) := by
  decide

/-- Claim C2 witness: the space byte is escaped to `%20`. -/
theorem percent_encode_set_exact_witness :
    percent_should_encode 32 = true ∧ percent_encode_byte 32 = [37, 50, 48] := by
  have h := percent_encode_set_exact 32 (by decide)
  have henc : percent_should_encode 32 = true :=
    h.1.mpr (Or.inl ⟨by decide, by decide⟩)
  exact ⟨henc, (h.2.1 henc).trans (by decide)⟩

/-! ## Claim C6: totality of the payload extractor -/

/-- Claim C6 counterexample: on a buffer whose first NUL byte precedes
the CRLFCRLF header terminator, the computed start (5) exceeds the
computed end (0), so the Rust slice `&buf[start..end]` panics — the
extractor is not total, contrary to the claim. -/
theorem extract_json_payload_panic_nul :
    extract_json_payload [0, 13, 10, 13, 10] = none ∧
    payload_start [0, 13, 10, 13, 10] = 5 ∧
    payload_end [0, 13, 10, 13, 10] = 0 := by
  decide

/-- Claim C6 (amended): whenever the computed start does not exceed the
computed end — in particular whenever no NUL byte precedes the payload
start — the extractor returns, without panicking, a contiguous
(possibly empty) sub-slice of its input; on buffers where a NUL byte
precedes the payload start it panics instead. -/
theorem extract_json_payload_subslice (buf : List Nat)
    (h : payload_start buf ≤ payload_end buf) :
    ∃ s, extract_json_payload buf = some s ∧ ∃ pre post, buf = pre ++ (s ++ post) := by
  refine ⟨(buf.drop (payload_start buf)).take (payload_end buf - payload_start buf), ?_, ?_⟩
  · unfold extract_json_payload
    rw [if_pos ⟨h, payload_end_le_length buf⟩]
  · exact drop_take_infix buf _ _

/-- Claim C6 witness: a header-less JSON object is extracted as a
sub-slice of itself. -/
theorem extract_json_payload_subslice_witness :
    ∃ s, extract_json_payload sample_payload = some s ∧
      ∃ pre post, sample_payload = pre ++ (s ++ post) :=
  extract_json_payload_subslice sample_payload (by decide)

/-! ## Claim C7: the extractor's start/end rule -/

/-- Claim C7 counterexample: a buffer that contains CRLFCRLF but whose
first NUL byte precedes it.  The claim promises a returned payload
(starting just after the CRLFCRLF and ending at the first NUL), but the
code panics (`none`): start 6 exceeds end 1. -/
theorem extract_rule_breaks_nul_before_headers :
    find_crlfcrlf [123, 0, 13, 10, 13, 10] = some 2 ∧
    extract_json_payload [123, 0, 13, 10, 13, 10] = none := by
  decide

/-- Claim C7 (amended): the §8 example extracts exactly the JSON object
bytes; in general, whenever the first NUL byte (if any) does not precede
the computed payload start, the extractor returns the bytes from the
computed start (just past the first CRLFCRLF occurrence when present,
else the first `{` or `[`, else 0) up to the computed end (the first NUL
when present, else the buffer length), and the underlying searches do
find first occurrences. -/
theorem extract_json_payload_rule (buf : List Nat)
    (h : payload_start buf ≤ payload_end buf) :
    extract_json_payload sample_http_response = some sample_payload ∧
    extract_json_payload buf =
      some ((buf.drop (payload_start buf)).take (payload_end buf - payload_start buf)) ∧
    (∀ i, find_crlfcrlf buf = some i →
      (buf.drop i).take 4 = [13, 10, 13, 10] ∧
      ∀ j, j < i → (buf.drop j).take 4 ≠ [13, 10, 13, 10]) ∧
    (∀ (p : Nat → Bool) i, find_pos p buf = some i →
      ∃ b, buf.get? i = some b ∧ p b = true ∧
        ∀ j, j < i → ∀ b', buf.get? j = some b' → p b' = false) ∧
    (find_pos (fun b => b == 0) buf = none → payload_end buf = buf.length) := by
  refine ⟨by decide, ?_, fun i hi => find_crlfcrlf_some_spec buf i hi,
    fun p i hi => find_pos_some_spec p buf i hi, fun hn => ?_⟩
  · unfold extract_json_payload
    rw [if_pos ⟨h, payload_end_le_length buf⟩]
  · unfold payload_end
    rw [hn]
    rfl

/-- Claim C7 witness: the rule applied to the §8 sample response. -/
theorem extract_json_payload_rule_witness :
    extract_json_payload sample_http_response = some sample_payload :=
  (extract_json_payload_rule sample_http_response (by decide)).1

/-! ## Claim C3: render behaviour on malformed derived fields -/

/-- Claim C3 counterexample: the render call-sites `unwrap` the parse
results instead of skipping malformed fields.  A sunrise string without
the `T` time separator (here a bare calendar date, shorter than 16
bytes) makes `get_iso_8601_hh_mm` return `None`, and
`draw_today_sunrise_sunset` panics on it (modelled `none`) even though
the pixel-buffer sink reports no error; likewise `draw_today_date`
panics on an unparsable date. -/
theorem render_panics_on_malformed :
    get_iso_8601_hh_mm "2024-06-01" = none ∧
    draw_today_sunrise_sunset "2024-06-01" "2024-06-01T20:29" false false = none ∧
    format_date "not-a-date!!" = none ∧
    draw_today_date "not-a-date!!" false = none := by
  exact ⟨rfl, rfl, rfl, rfl⟩

/-- Claim C3 (amended): when the date parses and both sunrise/sunset
strings carry a well-formed `HH:MM` part, the render helpers never
panic: they return a result, and that result is a failure exactly when
the pixel-buffer sink reported a drawing error; on malformed strings
they panic at the `unwrap` call-sites rather than skipping the field. -/
theorem render_ok_when_well_formed (date sunrise sunset : String) (e1 e2 e3 : Bool)
    (hd : (format_date date).isSome = true)
    (hr : (get_iso_8601_hh_mm sunrise).isSome = true)
    (hs : (get_iso_8601_hh_mm sunset).isSome = true) :
    (∃ r, draw_today_date date e3 = some r ∧ (r = Except.ok () ↔ e3 = false)) ∧
    (∃ r, draw_today_sunrise_sunset sunrise sunset e1 e2 = some r ∧
      (r = Except.ok () ↔ (e1 = false ∧ e2 = false))) := by
  obtain ⟨fd, hfd⟩ := Option.isSome_iff_exists.mp hd
  obtain ⟨t1, ht1⟩ := Option.isSome_iff_exists.mp hr
  obtain ⟨t2, ht2⟩ := Option.isSome_iff_exists.mp hs
  constructor
  · refine ⟨if e3 then .error .DisplayError else .ok (), ?_, ?_⟩
    · unfold draw_today_date
      rw [hfd]
      cases e3 <;> simp
    · cases e3 <;> simp
  · refine ⟨if e1 then .error .DisplayError
      else if e2 then .error .DisplayError else .ok (), ?_, ?_⟩
    · unfold draw_today_sunrise_sunset
      rw [ht1, ht2]
      cases e1 <;> cases e2 <;> simp
    · cases e1 <;> cases e2 <;> simp

/-- Claim C3 witness: well-formed date and sunrise/sunset strings
render without panic, and succeed with a non-erroring sink. -/
theorem render_ok_when_well_formed_witness :
    (∃ r, draw_today_date "2024-06-01" false = some r ∧
      (r = Except.ok () ↔ false = false)) ∧
    (∃ r, draw_today_sunrise_sunset "2024-06-01T05:32" "2024-06-01T20:29" false false
        = some r ∧ (r = Except.ok () ↔ (false = false ∧ false = false))) :=
  render_ok_when_well_formed "2024-06-01" "2024-06-01T05:32" "2024-06-01T20:29"
    false false false (by decide) (by decide) (by decide)

/-! ## Claim C4: DNS resolve deadline expiry -/

/-- Claim C4 counterexample: the production fetch path
(`fetch_weather_data_with` in `src/weather/api.rs`, also cited by the
claim) maps a resolve deadline expiry to `DnsQueryFailed`, not to the
timeout-flavored `RequestTimeout`. -/
theorem fetch_dns_timeout_not_timeout_error :
    (fetch_weather_data_with 1536 "39.868" "-104.9719" "America/Denver"
        resolve_timeout_oracle).1 = some (.error .DnsQueryFailed) ∧
    AppError.DnsQueryFailed ≠ AppError.RequestTimeout := by
  exact ⟨rfl, by decide⟩

/-- Claim C4 (amended): a fetch whose DNS resolve phase hits its
5-second deadline returns immediately with an error and never attempts
the connect phase, in both clients; `http_get` returns the
timeout-flavored `RequestTimeout`, while `fetch_weather_data_with`
returns `DnsQueryFailed`. -/
theorem dns_timeout_no_connect (host target : String) (headers : Option String)
    (lat lon tz : String) (n : Nat) (o : NetOracle)
    (hto : o.resolve = DlResult.timeout)
    (hbuild : ∃ r, build_http_request 512 "GET" target host headers none = .ok r) :
    http_get host target headers o = (some (.error .RequestTimeout), [.resolve]) ∧
    Phase.connect ∉ (http_get host target headers o).2 ∧
    fetch_weather_data_with n lat lon tz o = (some (.error .DnsQueryFailed), [.resolve]) ∧
    Phase.connect ∉ (fetch_weather_data_with n lat lon tz o).2 ∧
    RESOLVE_TIMEOUT_SECS = 5 := by
  obtain ⟨r, hr⟩ := hbuild
  have h1 : http_get host target headers o = (some (.error .RequestTimeout), [.resolve]) := by
    simp only [http_get, hr, hto]
  have h2 : fetch_weather_data_with n lat lon tz o
      = (some (.error .DnsQueryFailed), [.resolve]) := by
    simp only [fetch_weather_data_with, hto]
  refine ⟨h1, ?_, h2, ?_, rfl⟩
  · rw [h1]
    decide
  · rw [h2]
    decide

/-- Claim C4 witness: the amended statement at the concrete
resolve-timeout oracle. -/
theorem dns_timeout_no_connect_witness :
    http_get "api.open-meteo.com" "/v1/forecast" none resolve_timeout_oracle
      = (some (.error .RequestTimeout), [.resolve]) ∧
    Phase.connect ∉ (http_get "api.open-meteo.com" "/v1/forecast" none
      resolve_timeout_oracle).2 ∧
    fetch_weather_data_with 1536 "39.868" "-104.9719" "America/Denver"
      resolve_timeout_oracle = (some (.error .DnsQueryFailed), [.resolve]) ∧
    Phase.connect ∉ (fetch_weather_data_with 1536 "39.868" "-104.9719" "America/Denver"
      resolve_timeout_oracle).2 ∧
    RESOLVE_TIMEOUT_SECS = 5 :=
  dns_timeout_no_connect "api.open-meteo.com" "/v1/forecast" none
    "39.868" "-104.9719" "America/Denver" 1536 resolve_timeout_oracle rfl
    ⟨_, rfl⟩

/-! ## Claim C5: receive-phase accumulation -/

set_option maxRecDepth 16384 in
/-- Claim C5: `http_get` does accumulate every chunk in arrival order,
but the production fetch path `fetch_weather_data_with` (cited by the
same spec section) overwrites the start of its fixed buffer on every
read: with chunks `[97, 98]` then `[99, 100]` and a buffer of 4 bytes it
returns `[99, 100, 0, 0]` instead of the concatenation
`[97, 98, 99, 100]` — received bytes are overwritten and dropped. -/
theorem fetch_receive_overwrites :
    (fetch_weather_data_with 4 "39.868" "-104.9719" "America/Denver" two_chunk_oracle).1
      = some (.ok [99, 100, 0, 0]) ∧
    (http_get "api.open-meteo.com" "/v1/forecast" none two_chunk_oracle).1
      = some (.ok [97, 98, 99, 100]) ∧
    ([99, 100, 0, 0] : List Nat) ≠ [97, 98, 99, 100] ∧
    (∀ (host target : String) (headers : Option String) (o : NetOracle) (bs : List Nat)
      (tr : List Phase), http_get host target headers o = (some (.ok bs), tr) →
      ∃ (pre : List (List Nat)) (rest : List ReadEv),
        o.recv = pre.map ReadEv.chunk ++ ReadEv.closed :: rest ∧ bs = pre.flatten) := by
  refine ⟨by rfl, by rfl, by decide, ?_⟩
  intro host target headers o bs tr h
  have hrecv : recv_accumulate o.recv [] = .ok bs := by
    unfold http_get at h
    rcases hb : build_http_request 512 "GET" target host headers none with e | r <;>
      rw [hb] at h
    · exact absurd h (by simp)
    rcases hres : o.resolve with _ | a <;> rw [hres] at h
    · exact absurd h (by simp)
    rcases a with e | l
    · exact absurd h (by simp)
    rcases l with _ | ⟨a0, addrs⟩
    · exact absurd h (by simp)
    rcases hcon : o.connect with _ | ca <;> rw [hcon] at h
    · exact absurd h (by simp)
    rcases ca with e | ⟨⟩
    · exact absurd h (by simp)
    rcases hsend : o.send with _ | sa <;> rw [hsend] at h
    · exact absurd h (by simp)
    rcases sa with e | ⟨⟩
    · exact absurd h (by simp)
    rcases hrv : recv_accumulate o.recv [] with rbs | _ | _ <;> rw [hrv] at h
    · simp only [Prod.mk.injEq, Option.some.injEq, Except.ok.injEq] at h
      rw [h.1]
    · exact absurd h (by simp)
    · exact absurd h (by simp)
  obtain ⟨pre, rest, hev, hbs⟩ := recv_accumulate_ok o.recv [] bs hrecv
  exact ⟨pre, rest, hev, by simpa using hbs⟩

/-! ## Claim C10: geometry of the future-days strip -/

/-- Claim C10: for a decoded forecast with `n` daily entries whose
future dates are well-formed (the data-model invariant), the strip
renders exactly `n - 1` entries, one per day index `1 ≤ i < n`, the
entry for day `i = k + 1` anchored at `x = 191`,
`y = 15 + (i - 1) * 18 = 15 + k * 18`. -/
theorem draw_future_strip (w : OpenMeteoResponse)
    (hn2 : 2 ≤ w.daily.time.length) (hn7 : w.daily.time.length ≤ 7)
    (hu : w.daily_units.temperature_2m_max ≠ "")
    (hok : ∀ i, i < w.daily.time.length → 1 ≤ i → (future_entry w i).isSome = true) :
    ∃ es, draw_future_weather_view w = some es ∧
      es.length = w.daily.time.length - 1 ∧
      ∀ k, k < es.length →
        ∃ e, es.get? k = some e ∧ e.day = k + 1 ∧ e.anchor_x = 191 ∧
          e.anchor_y = 15 + (k : Int) * 18 := by
  obtain ⟨es, hes, hlen, hget⟩ := future_entries_range' w (w.daily.time.length - 1) 1
    (fun i h1 h2 => hok i (by omega) h1)
  refine ⟨es, ?_, hlen, ?_⟩
  · have hne : w.daily_units.temperature_2m_max.toList ≠ [] := by
      intro hc
      exact hu (String.ext hc)
    obtain ⟨tu, htu⟩ := Option.isSome_iff_exists.mp (List.getLast?_isSome.mpr hne)
    simp only [draw_future_weather_view, Option.bind_eq_bind, Option.bind_eq_some']
    exact ⟨tu, htu, hes⟩
  · intro k hk
    have hk' : k < w.daily.time.length - 1 := by omega
    obtain ⟨e, he, hgetk⟩ := hget k hk'
    obtain ⟨hday, hax, hay⟩ := future_entry_fields w (1 + k) e he
    refine ⟨e, hgetk, ?_, hax, ?_⟩
    · rw [hday]
      omega
    · rw [hay]
      push_cast
      ring

/-- Claim C10 witness: the three-day sample renders exactly two future
entries, at vertical offsets 15 and 33. -/
theorem draw_future_strip_witness :
    ∃ es, draw_future_weather_view sample_forecast3 = some es ∧
      es.length = sample_forecast3.daily.time.length - 1 ∧
      ∀ k, k < es.length →
        ∃ e, es.get? k = some e ∧ e.day = k + 1 ∧ e.anchor_x = 191 ∧
          e.anchor_y = 15 + (k : Int) * 18 :=
  draw_future_strip sample_forecast3 (by decide) (by decide) (by decide) (by decide)

/-! ## Claim C1: the decoder is bounded and all-or-nothing -/

theorem decodeString_ok {cap : Nat} {j : Json} {s : String}
    (h : decodeString cap j = .ok s) : StrOk cap j s := by
  cases j <;> simp only [decodeString] at h <;> try exact Except.noConfusion h
  case str s' =>
    split at h
    · next hle =>
      injection h with h'
      subst h'
      exact ⟨rfl, hle⟩
    · exact Except.noConfusion h

theorem decodeNumber_ok {j : Json} {n : Int} (h : decodeNumber j = .ok n) : NumOk j n := by
  cases j <;> simp only [decodeNumber] at h <;> try exact Except.noConfusion h
  case num n' =>
    injection h with h'
    subst h'
    rfl

theorem decodeElems_forall₂ {α : Type} (d : Json → Except DecodeError α) :
    ∀ (xs : List Json) (as : List α), decodeElems d xs = .ok as →
      List.Forall₂ (fun x a => d x = .ok a) xs as := by
  intro xs
  induction xs with
  | nil =>
    intro as h
    simp only [decodeElems] at h
    injection h with h'
    subst h'
    exact List.Forall₂.nil
  | cons x xs ih =>
    intro as h
    simp only [decodeElems, except_bind_ok] at h
    obtain ⟨a, ha, as', has', hcons⟩ := h
    injection hcons with h'
    subst h'
    exact List.Forall₂.cons ha (ih as' has')

theorem decodeVec_str_ok {cap : Nat} {j : Json} {ss : List String}
    (h : decodeVec MAX_DAYS (decodeString cap) j = .ok ss) : VecStrOk cap j ss := by
  cases j <;> simp only [decodeVec] at h <;> try exact Except.noConfusion h
  case arr xs =>
    split at h
    · next hle =>
      exact ⟨xs, rfl, hle,
        (decodeElems_forall₂ _ xs ss h).imp (fun _ _ hx => decodeString_ok hx)⟩
    · exact Except.noConfusion h

theorem decodeVec_num_ok {j : Json} {ns : List Int}
    (h : decodeVec MAX_DAYS decodeNumber j = .ok ns) : VecNumOk j ns := by
  cases j <;> simp only [decodeVec] at h <;> try exact Except.noConfusion h
  case arr xs =>
    split at h
    · next hle =>
      exact ⟨xs, rfl, hle,
        (decodeElems_forall₂ _ xs ns h).imp (fun _ _ hx => decodeNumber_ok hx)⟩
    · exact Except.noConfusion h

theorem decodeDailyUnits_ok {j : Json} {u : DailyUnits} (h : decodeDailyUnits j = .ok u) :
    FieldOk j "time" (fun v => StrOk BUF_LEN v u.time) ∧
    FieldOk j "weather_code" (fun v => StrOk BUF_LEN v u.weather_code) ∧
    FieldOk j "temperature_2m_max" (fun v => StrOk BUF_LEN v u.temperature_2m_max) ∧
    FieldOk j "temperature_2m_min" (fun v => StrOk BUF_LEN v u.temperature_2m_min) ∧
    FieldOk j "sunrise" (fun v => StrOk BUF_LEN v u.sunrise) ∧
    FieldOk j "sunset" (fun v => StrOk BUF_LEN v u.sunset) ∧
    FieldOk j "wind_speed_10m_max" (fun v => StrOk BUF_LEN v u.wind_speed_10m_max) ∧
    FieldOk j "wind_direction_10m_dominant"
      (fun v => StrOk BUF_LEN v u.wind_direction_10m_dominant) := by
  simp only [decodeDailyUnits, except_bind_ok, Except.ok.injEq] at h
  obtain ⟨t1, ⟨v1, hv1, hd1⟩, t2, ⟨v2, hv2, hd2⟩, t3, ⟨v3, hv3, hd3⟩,
    t4, ⟨v4, hv4, hd4⟩, t5, ⟨v5, hv5, hd5⟩, t6, ⟨v6, hv6, hd6⟩,
    t7, ⟨v7, hv7, hd7⟩, t8, ⟨v8, hv8, hd8⟩, hu⟩ := h
  subst hu
  exact ⟨⟨v1, hv1, decodeString_ok hd1⟩, ⟨v2, hv2, decodeString_ok hd2⟩,
    ⟨v3, hv3, decodeString_ok hd3⟩, ⟨v4, hv4, decodeString_ok hd4⟩,
    ⟨v5, hv5, decodeString_ok hd5⟩, ⟨v6, hv6, decodeString_ok hd6⟩,
    ⟨v7, hv7, decodeString_ok hd7⟩, ⟨v8, hv8, decodeString_ok hd8⟩⟩

theorem decodeDaily_ok {j : Json} {da : Daily} (h : decodeDaily j = .ok da) :
    FieldOk j "time" (fun v => VecStrOk BUF_LEN v da.time) ∧
    FieldOk j "weather_code" (fun v => VecNumOk v da.weather_code) ∧
    FieldOk j "temperature_2m_max" (fun v => VecNumOk v da.temperature_2m_max) ∧
    FieldOk j "temperature_2m_min" (fun v => VecNumOk v da.temperature_2m_min) ∧
    FieldOk j "sunrise" (fun v => VecStrOk BUF_LEN v da.sunrise) ∧
    FieldOk j "sunset" (fun v => VecStrOk BUF_LEN v da.sunset) ∧
    FieldOk j "wind_speed_10m_max" (fun v => VecNumOk v da.wind_speed_10m_max) ∧
    FieldOk j "wind_direction_10m_dominant"
      (fun v => VecNumOk v da.wind_direction_10m_dominant) := by
  simp only [decodeDaily, except_bind_ok, Except.ok.injEq] at h
  obtain ⟨t1, ⟨v1, hv1, hd1⟩, t2, ⟨v2, hv2, hd2⟩, t3, ⟨v3, hv3, hd3⟩,
    t4, ⟨v4, hv4, hd4⟩, t5, ⟨v5, hv5, hd5⟩, t6, ⟨v6, hv6, hd6⟩,
    t7, ⟨v7, hv7, hd7⟩, t8, ⟨v8, hv8, hd8⟩, hda⟩ := h
  subst hda
  exact ⟨⟨v1, hv1, decodeVec_str_ok hd1⟩, ⟨v2, hv2, decodeVec_num_ok hd2⟩,
    ⟨v3, hv3, decodeVec_num_ok hd3⟩, ⟨v4, hv4, decodeVec_num_ok hd4⟩,
    ⟨v5, hv5, decodeVec_str_ok hd5⟩, ⟨v6, hv6, decodeVec_str_ok hd6⟩,
    ⟨v7, hv7, decodeVec_num_ok hd7⟩, ⟨v8, hv8, decodeVec_num_ok hd8⟩⟩

theorem decodeOpenMeteo_ok_conforms (j : Json) (f : OpenMeteoResponse)
    (h : decodeOpenMeteo j = .ok f) : Conforms j f := by
  simp only [decodeOpenMeteo, except_bind_ok, Except.ok.injEq] at h
  obtain ⟨lat, ⟨v1, hv1, hd1⟩, lon, ⟨v2, hv2, hd2⟩, gen, ⟨v3, hv3, hd3⟩,
    utc, ⟨v4, hv4, hd4⟩, tz, ⟨v5, hv5, hd5⟩, tzab, ⟨v6, hv6, hd6⟩,
    elev, ⟨v7, hv7, hd7⟩, du, ⟨v8, hv8, hd8⟩, da, ⟨v9, hv9, hd9⟩, hf⟩ := h
  subst hf
  exact ⟨⟨v1, hv1, decodeNumber_ok hd1⟩, ⟨v2, hv2, decodeNumber_ok hd2⟩,
    ⟨v3, hv3, decodeNumber_ok hd3⟩, ⟨v4, hv4, decodeNumber_ok hd4⟩,
    ⟨v5, hv5, decodeString_ok hd5⟩, ⟨v6, hv6, decodeString_ok hd6⟩,
    ⟨v7, hv7, decodeNumber_ok hd7⟩, ⟨v8, hv8, decodeDailyUnits_ok hd8⟩,
    ⟨v9, hv9, decodeDaily_ok hd9⟩⟩

theorem vec_str_len_le {cap : Nat} {ss : List String} {xs : List Json}
    (h : VecStrOk cap (.arr xs) ss) : xs.length ≤ MAX_DAYS := by
  obtain ⟨xs', heq, hlen, -⟩ := h
  injection heq with h'
  subst h'
  exact hlen

theorem vec_num_len_le {ns : List Int} {xs : List Json}
    (h : VecNumOk (.arr xs) ns) : xs.length ≤ MAX_DAYS := by
  obtain ⟨xs', heq, hlen, -⟩ := h
  injection heq with h'
  subst h'
  exact hlen

/-- Claim C1: the decode of a forecast payload is bounded and
all-or-nothing.  A successful decode certifies every required field
present with the right JSON type, every `daily` array at most
`MAX_DAYS = 7` long and mirrored element-for-element in the forecast (no
truncation), and every bounded string within its byte capacity;
contrapositively, any payload with an over-capacity `daily` array, an
over-capacity string, a missing required field, or a type mismatch
decodes to an error — the decoder is a total function into `Except`, so
it cannot panic and no partial forecast is observable. -/
theorem decode_is_bounded_all_or_nothing :
    (∀ (j : Json) (f : OpenMeteoResponse), decodeOpenMeteo j = .ok f → Conforms j f) ∧
    (∀ (j d : Json) (name : String) (xs : List Json), getField j "daily" = .ok d →
      name ∈ daily_array_fields → getField d name = .ok (.arr xs) →
      MAX_DAYS < xs.length → ∀ f, decodeOpenMeteo j ≠ .ok f) ∧
    (∀ (j : Json) (s : String), getField j "timezone" = .ok (.str s) →
      BUF_LEN < s.utf8ByteSize → ∀ f, decodeOpenMeteo j ≠ .ok f) ∧
    (∀ (j : Json) (s : String), getField j "timezone_abbreviation" = .ok (.str s) →
      TZ_ABBR_LEN < s.utf8ByteSize → ∀ f, decodeOpenMeteo j ≠ .ok f) ∧
    (∀ (j : Json) (fs : List (String × Json)), j = .obj fs → jget fs "latitude" = none →
      ∀ f, decodeOpenMeteo j ≠ .ok f) ∧
    (∀ (j : Json) (s : String), getField j "latitude" = .ok (.str s) →
      ∀ f, decodeOpenMeteo j ≠ .ok f) := by
  refine ⟨decodeOpenMeteo_ok_conforms, ?_, ?_, ?_, ?_, ?_⟩
  · intro j d name xs hd hmem hname hlen f hok
    obtain ⟨-, -, -, -, -, -, -, -, hdaily⟩ := decodeOpenMeteo_ok_conforms j f hok
    obtain ⟨d', hd', hdprops⟩ := hdaily
    have hdd : d' = d := by
      have := hd'.symm.trans hd
      injection this
    subst hdd
    obtain ⟨P1, P2, P3, P4, P5, P6, P7, P8⟩ := hdprops
    fin_cases hmem
    · obtain ⟨v, hv, hvec⟩ := P1
      have hva := hv.symm.trans hname
      injection hva with hva'
      subst hva'
      exact absurd (vec_str_len_le hvec) (by omega)
    · obtain ⟨v, hv, hvec⟩ := P2
      have hva := hv.symm.trans hname
      injection hva with hva'
      subst hva'
      exact absurd (vec_num_len_le hvec) (by omega)
    · obtain ⟨v, hv, hvec⟩ := P3
      have hva := hv.symm.trans hname
      injection hva with hva'
      subst hva'
      exact absurd (vec_num_len_le hvec) (by omega)
    · obtain ⟨v, hv, hvec⟩ := P4
      have hva := hv.symm.trans hname
      injection hva with hva'
      subst hva'
      exact absurd (vec_num_len_le hvec) (by omega)
    · obtain ⟨v, hv, hvec⟩ := P5
      have hva := hv.symm.trans hname
      injection hva with hva'
      subst hva'
      exact absurd (vec_str_len_le hvec) (by omega)
    · obtain ⟨v, hv, hvec⟩ := P6
      have hva := hv.symm.trans hname
      injection hva with hva'
      subst hva'
      exact absurd (vec_str_len_le hvec) (by omega)
    · obtain ⟨v, hv, hvec⟩ := P7
      have hva := hv.symm.trans hname
      injection hva with hva'
      subst hva'
      exact absurd (vec_num_len_le hvec) (by omega)
    · obtain ⟨v, hv, hvec⟩ := P8
      have hva := hv.symm.trans hname
      injection hva with hva'
      subst hva'
      exact absurd (vec_num_len_le hvec) (by omega)
  · intro j s hname hlen f hok
    obtain ⟨-, -, -, -, htz, -, -, -, -⟩ := decodeOpenMeteo_ok_conforms j f hok
    obtain ⟨v, hv, heq, hle⟩ := htz
    have hvs := hv.symm.trans hname
    injection hvs with hvs'
    subst hvs'
    injection heq with heq'
    rw [heq'] at hlen
    omega
  · intro j s hname hlen f hok
    obtain ⟨-, -, -, -, -, htz, -, -, -⟩ := decodeOpenMeteo_ok_conforms j f hok
    obtain ⟨v, hv, heq, hle⟩ := htz
    have hvs := hv.symm.trans hname
    injection hvs with hvs'
    subst hvs'
    injection heq with heq'
    rw [heq'] at hlen
    omega
  · intro j fs hobj hmiss f hok
    obtain ⟨hlat, -⟩ := decodeOpenMeteo_ok_conforms j f hok
    obtain ⟨v, hv, -⟩ := hlat
    subst hobj
    simp only [getField, hmiss] at hv
    exact Except.noConfusion hv
  · intro j s hname f hok
    obtain ⟨hlat, -⟩ := decodeOpenMeteo_ok_conforms j f hok
    obtain ⟨v, hv, hnum⟩ := hlat
    have hvs := hv.symm.trans hname
    injection hvs with hvs'
    subst hvs'
    exact Json.noConfusion hnum

/-- Claim C1 witness: the sample payload decodes, certifying its shape
and bounds. -/
theorem decode_is_bounded_all_or_nothing_witness :
    Conforms sample_response_json sample_forecast :=
  decode_is_bounded_all_or_nothing.1 sample_response_json sample_forecast (by rfl)

end Magtag
